import Mathlib

/-!
Verification of the HONEY-POT repository's decision core against its design
specification.  The Python sources are shallowly embedded: message text is
`List Char`, Python floats are modelled exactly over `ℚ`, dictionaries are
association lists, and the regex-based extractors are hand-compiled scanners
implementing the exact matching semantics of the patterns in the source.
Python's `str` operations are modelled over ASCII, which covers every lexicon
word and test string appearing in the repository.
-/

/-! ## Character and string primitives (ASCII model of Python's `str`/`re`) -/

/-- ASCII letter, Python regex `[a-zA-Z]`. -/
def isAsciiAlpha (c : Char) : Bool :=
  (('a' ≤ c) && (c ≤ 'z')) || (('A' ≤ c) && (c ≤ 'Z'))

/-- ASCII digit, Python regex `\d`. -/
def isAsciiDigit (c : Char) : Bool :=
  ('0' ≤ c) && (c ≤ '9')

/-- Python regex `\w` word character (ASCII model): letter, digit or underscore. -/
def isWordCh (c : Char) : Bool :=
  isAsciiAlpha c || isAsciiDigit c || (c = '_')

/-- Python regex `\s` whitespace (ASCII): space, tab, LF, CR, FF, VT. -/
def isSpaceCh (c : Char) : Bool :=
  c = ' ' || c = '\t' || c = '\n' || c = '\r' || c = Char.ofNat 12 || c = Char.ofNat 11

/-- Python `str.lower` on an ASCII character. -/
def lowerCh (c : Char) : Char :=
  if ('A' ≤ c) && (c ≤ 'Z') then Char.ofNat (c.toNat + 32) else c

/-- Python `str.lower`. -/
def lowerStr (s : List Char) : List Char := s.map lowerCh

/-- `leadsWith pat s` : `pat` occurs at the start of `s`. -/
def leadsWith : List Char → List Char → Bool
  | [], _ => true
  | _ :: _, [] => false
  | p :: ps, c :: cs => (p = c) && leadsWith ps cs

/-- Python's `pat in s` substring test. -/
def hasSub (pat : List Char) : List Char → Bool
  | [] => leadsWith pat []
  | c :: cs => leadsWith pat (c :: cs) || hasSub pat cs

/-- `endsWithSub suf s` : Python `s.endswith(suf)`. -/
def endsWithSub (suf s : List Char) : Bool :=
  leadsWith suf.reverse s.reverse

/-- Python `s.find(pat)` : index of the first occurrence, `none` for -1. -/
def idxOfSub (pat : List Char) : List Char → Option Nat
  | [] => if leadsWith pat [] then some 0 else none
  | c :: cs => if leadsWith pat (c :: cs) then some 0 else (idxOfSub pat cs).map (· + 1)

/-- String literal to character list, for writing the source's string constants. -/
def strL (s : String) : List Char := s.toList

/-! ## Association lists (Python `dict` with insertion order) -/

/-- Python `d.get(k)` / `d[k]` lookup. -/
def assocFind {κ α : Type} [DecidableEq κ] (k : κ) : List (κ × α) → Option α
  | [] => none
  | (k2, v) :: rest => if k = k2 then some v else assocFind k rest

/-- Replace the value stored under an existing key, keeping dict order. -/
def assocReplace {κ α : Type} [DecidableEq κ] (k : κ) (v2 : α) :
    List (κ × α) → List (κ × α)
  | [] => []
  | (k2, v) :: rest =>
    if k = k2 then (k2, v2) :: rest else (k2, v) :: assocReplace k v2 rest

/-- Python `d[k] = v`: replace if present, else append (dicts keep insertion order). -/
def assocSet {κ α : Type} [DecidableEq κ] (k : κ) (v : α) (d : List (κ × α)) :
    List (κ × α) :=
  match assocFind k d with
  | some _ => assocReplace k v d
  | none => d ++ [(k, v)]

/-! ## The agent state machine

`src/ai_agent/state_machine.py` and `src/honey-pot_api/main.py` both declare the
same six-state enum; one inductive type stands for both. -/

/-- Agent states in the honeypot conversation (`class AgentState(Enum)`). -/
inductive AgentState where
  | INIT
  | CONFUSED
  | TRUSTING
  | COMPLIANT
  | EXTRACTION
  | EXIT
deriving DecidableEq, Repr

namespace StateMachine

/-- `get_next_state` of `src/ai_agent/state_machine.py`.  The trailing
`return current_state` of the source is only reachable for `EXIT`, which has no
branch of its own in the `elif` chain. -/
def get_next_state (current_state : AgentState) (turn_count : Nat)
    (has_payment_request : Bool) (intelligence_count : Nat)
    (max_turns : Nat := 10) : AgentState :=
  if turn_count ≥ max_turns then AgentState.EXIT
  else if intelligence_count ≥ 3 ∧ current_state = AgentState.EXTRACTION then
    AgentState.EXIT
  else
    match current_state with
    | AgentState.INIT => AgentState.CONFUSED
    | AgentState.CONFUSED =>
      if turn_count ≥ 2 then AgentState.TRUSTING else AgentState.CONFUSED
    | AgentState.TRUSTING =>
      if has_payment_request || turn_count ≥ 4 then AgentState.COMPLIANT
      else AgentState.TRUSTING
    | AgentState.COMPLIANT =>
      if turn_count ≥ 5 then AgentState.EXTRACTION else AgentState.COMPLIANT
    | AgentState.EXTRACTION =>
      if intelligence_count ≥ 2 || turn_count ≥ 8 then AgentState.EXIT
      else AgentState.EXTRACTION
    | AgentState.EXIT => current_state

/-- `is_exit_state` of `src/ai_agent/state_machine.py`. -/
def is_exit_state (state : AgentState) : Bool :=
  state = AgentState.EXIT

end StateMachine

namespace MainApi

/-- `get_next_state` of `src/honey-pot_api/main.py` (lines 97-120); the
condensed copy of the state machine used by the orchestrator endpoint. -/
def get_next_state (current_state : AgentState) (turn_count : Nat)
    (has_payment_request : Bool) (intelligence_count : Nat)
    (max_turns : Nat := 10) : AgentState :=
  if turn_count ≥ max_turns then AgentState.EXIT
  else if intelligence_count ≥ 3 ∧ current_state = AgentState.EXTRACTION then
    AgentState.EXIT
  else
    match current_state with
    | AgentState.INIT => AgentState.CONFUSED
    | AgentState.CONFUSED =>
      if turn_count ≥ 2 then AgentState.TRUSTING else AgentState.CONFUSED
    | AgentState.TRUSTING =>
      if has_payment_request || turn_count ≥ 4 then AgentState.COMPLIANT
      else AgentState.TRUSTING
    | AgentState.COMPLIANT =>
      if turn_count ≥ 5 then AgentState.EXTRACTION else AgentState.COMPLIANT
    | AgentState.EXTRACTION =>
      if intelligence_count ≥ 2 || turn_count ≥ 8 then AgentState.EXIT
      else AgentState.EXTRACTION
    | AgentState.EXIT => current_state

end MainApi

/-! ## Claim C1: the turn ceiling is absolute -/

/-- C1: for every current state, payment-request flag and intelligence count,
once `turn_count` has reached the ceiling `max_turns`, `get_next_state` returns
`EXIT` — in both copies of the state machine.  The ceiling test is the first
branch of the function, so it overrides every other transition rule. -/
theorem C1_turn_ceiling_forces_exit (s : AgentState) (tc : Nat) (pr : Bool)
    (ic mt : Nat) (h : mt ≤ tc) :
    StateMachine.get_next_state s tc pr ic mt = AgentState.EXIT ∧
      MainApi.get_next_state s tc pr ic mt = AgentState.EXIT := by
  constructor <;>
    simp [StateMachine.get_next_state, MainApi.get_next_state, h]

/-- C1 witness: at the default ceiling 10, a `TRUSTING` session with ten turns,
no payment request and no intelligence exits at once. -/
theorem C1_turn_ceiling_forces_exit_witness :
    StateMachine.get_next_state AgentState.TRUSTING 10 false 0 10 = AgentState.EXIT ∧
      MainApi.get_next_state AgentState.TRUSTING 10 false 0 10 = AgentState.EXIT :=
  C1_turn_ceiling_forces_exit AgentState.TRUSTING 10 false 0 10 (by decide)

/-! ## Claim C2: EXIT is terminal -/

/-- C2: `EXIT` is terminal: for every turn count, payment-request flag,
intelligence count and ceiling, both copies of `get_next_state` map `EXIT` to
`EXIT`, so a session whose state is `EXIT` never transitions again. -/
theorem C2_exit_is_terminal (tc : Nat) (pr : Bool) (ic mt : Nat) :
    StateMachine.get_next_state AgentState.EXIT tc pr ic mt = AgentState.EXIT ∧
      MainApi.get_next_state AgentState.EXIT tc pr ic mt = AgentState.EXIT := by
  constructor <;>
    simp [StateMachine.get_next_state, MainApi.get_next_state]

/-! ## The scam detection service (`src/services/detector.py`) -/

namespace Detector

/-- `SCAM_KEYWORDS` of `src/services/detector.py`: keyword categories, in
declaration order. -/
def SCAM_KEYWORDS : List (List Char × List (List Char)) :=
  [ (strL "urgency",
      [strL "immediately", strL "urgent", strL "now", strL "quick", strL "fast",
       strL "hurry", strL "asap", strL "within 24 hours", strL "today only",
       strL "last chance"]),
    (strL "threat",
      [strL "blocked", strL "suspend", strL "freeze", strL "legal action",
       strL "police", strL "arrest", strL "court", strL "case", strL "fine",
       strL "penalty"]),
    (strL "financial",
      [strL "upi", strL "bank", strL "account", strL "transfer", strL "payment",
       strL "money", strL "rupees", strL "rs", strL "inr"]),
    (strL "authority",
      [strL "rbi", strL "reserve bank", strL "government", strL "customs",
       strL "income tax", strL "telecom", strL "trai"]),
    (strL "reward",
      [strL "lottery", strL "prize", strL "winner", strL "congratulations",
       strL "won", strL "lucky", strL "reward", strL "cashback"]),
    (strL "verification",
      [strL "verify", strL "kyc", strL "update", strL "aadhar", strL "pan",
       strL "otp", strL "link", strL "click"]) ]

/-- `SCAM_THRESHOLD` of `src/services/detector.py`. -/
def SCAM_THRESHOLD : Nat := 2

/-- The inner loop of `calculate_scam_score` for one category: the `break`
after the first keyword hit makes each category add at most 1 to the score and
appear at most once in `matched_categories`. -/
def scoreCategory (text_lower : List Char) (acc : Nat × List (List Char))
    (cat : List Char × List (List Char)) : Nat × List (List Char) :=
  if cat.2.any (fun kw => hasSub kw text_lower) then
    (acc.1 + 1, if cat.1 ∈ acc.2 then acc.2 else acc.2 ++ [cat.1])
  else acc

/-- `calculate_scam_score` of `src/services/detector.py`: the score and the
matched category names. -/
def calculate_scam_score (text : List Char) : Nat × List (List Char) :=
  SCAM_KEYWORDS.foldl (scoreCategory (lowerStr text)) (0, [])

/-- `is_scam_message` of `src/services/detector.py`. -/
def is_scam_message (text : List Char) : Bool :=
  (calculate_scam_score text).1 ≥ SCAM_THRESHOLD

/-- The number of keyword categories with at least one hit in the lower-cased
text; the specification-level reading of the detector's score. -/
def hitCategoryCount (text : List Char) : Nat :=
  (SCAM_KEYWORDS.filter (fun cat => cat.2.any (fun kw => hasSub kw (lowerStr text)))).length

theorem scoreCategory_fold_fst (cats : List (List Char × List (List Char)))
    (tl : List Char) (n : Nat) (cs : List (List Char)) :
    (cats.foldl (scoreCategory tl) (n, cs)).1 =
      n + (cats.filter (fun cat => cat.2.any (fun kw => hasSub kw tl))).length := by
  induction cats generalizing n cs with
  | nil => simp
  | cons cat rest ih =>
    by_cases h : cat.2.any (fun kw => hasSub kw tl)
    · simp [scoreCategory, h, ih, Nat.add_comm, Nat.add_assoc, Nat.add_left_comm]
    · simp [scoreCategory, h, ih]

end Detector

/-! ## Claim C10: scam flag means keywords from at least two distinct categories -/

/-- C10: `calculate_scam_score` counts each keyword category at most once per
message — its score is exactly the number of categories with at least one
keyword hit — and `is_scam_message` is true exactly when that count reaches
the threshold of 2. -/
theorem C10_detector_two_categories (text : List Char) :
    (Detector.calculate_scam_score text).1 = Detector.hitCategoryCount text ∧
      (Detector.is_scam_message text = true ↔ 2 ≤ Detector.hitCategoryCount text) := by
  have hscore : (Detector.calculate_scam_score text).1 = Detector.hitCategoryCount text := by
    unfold Detector.calculate_scam_score Detector.hitCategoryCount
    simpa using Detector.scoreCategory_fold_fst Detector.SCAM_KEYWORDS (lowerStr text) 0 []
  refine ⟨hscore, ?_⟩
  unfold Detector.is_scam_message Detector.SCAM_THRESHOLD
  rw [hscore]
  simp

/-- C10 witness: "urgent: your account is blocked" hits the urgency, threat and
financial categories, so the detector flags it. -/
theorem C10_detector_two_categories_witness :
    Detector.is_scam_message (strL "urgent: your account is blocked") = true :=
  (C10_detector_two_categories (strL "urgent: your account is blocked")).2.mpr (by decide)

/-! ## The behavior profiler (`src/ai_agent/profiler.py`) -/

namespace Profiler

/-- `BehaviorProfile` of `src/ai_agent/profiler.py`.  Scores are Python floats,
modelled exactly over `ℚ`; `payment_turn` starts at -1 ("unset"). -/
structure BehaviorProfile where
  urgency_score : ℚ := 0
  aggression_score : ℚ := 0
  payment_turn : ℤ := -1
  total_messages : Nat := 0
  threat_count : Nat := 0
  payment_request_count : Nat := 0
  identity_claims : List (List Char) := []
deriving DecidableEq, Repr

/-- `URGENCY_WORDS` of `src/ai_agent/profiler.py`. -/
def URGENCY_WORDS : List (List Char) :=
  [strL "immediately", strL "urgent", strL "now", strL "quick", strL "fast",
   strL "hurry", strL "asap", strL "within 24 hours", strL "today only",
   strL "last chance", strL "time is running out", strL "deadline", strL "expire"]

/-- `THREAT_WORDS` of `src/ai_agent/profiler.py`. -/
def THREAT_WORDS : List (List Char) :=
  [strL "blocked", strL "suspend", strL "freeze", strL "legal action",
   strL "police", strL "arrest", strL "court", strL "case", strL "fine",
   strL "penalty", strL "jail"]

/-- `PAYMENT_WORDS` of `src/ai_agent/profiler.py`. -/
def PAYMENT_WORDS : List (List Char) :=
  [strL "send money", strL "transfer", strL "pay", strL "payment", strL "amount",
   strL "rupees", strL "rs", strL "inr", strL "deposit", strL "fee", strL "charges"]

/-- `AUTHORITY_CLAIMS` of `src/ai_agent/profiler.py`. -/
def AUTHORITY_CLAIMS : List (List Char) :=
  [strL "bank", strL "rbi", strL "reserve bank", strL "government", strL "police",
   strL "cyber cell", strL "income tax", strL "customs", strL "telecom"]

/-- The authority-claim loop of `analyze_message`: a matching claim not yet
recorded is appended, preserving first-seen order. -/
def addClaims (claims : List (List Char)) (text_lower : List Char)
    (recorded : List (List Char)) : List (List Char) :=
  claims.foldl
    (fun acc claim =>
      if hasSub claim text_lower ∧ claim ∉ acc then acc ++ [claim] else acc)
    recorded

/-- `analyze_message` of `src/ai_agent/profiler.py`, written functionally: the
Python mutates `profile` in place and returns it. -/
def analyze_message (text : List Char) (turn : ℤ) (profile : BehaviorProfile) :
    BehaviorProfile :=
  let text_lower := lowerStr text
  let p0 := { profile with total_messages := profile.total_messages + 1 }
  let urgency_matches := (URGENCY_WORDS.filter (fun w => hasSub w text_lower)).length
  let p1 :=
    if urgency_matches > 0 then
      { p0 with urgency_score := max p0.urgency_score (min ((urgency_matches : ℚ) / 3) 1) }
    else p0
  let threat_matches := (THREAT_WORDS.filter (fun w => hasSub w text_lower)).length
  let p2 :=
    if threat_matches > 0 then
      { p1 with threat_count := p1.threat_count + threat_matches, aggression_score := max p1.aggression_score (min ((threat_matches : ℚ) / 2) 1) }
    else p1
  let payment_matches := (PAYMENT_WORDS.filter (fun w => hasSub w text_lower)).length
  let p3 :=
    if payment_matches > 0 then
      { p2 with payment_request_count := p2.payment_request_count + 1, payment_turn := if p2.payment_turn = -1 then turn else p2.payment_turn }
    else p2
  { p3 with identity_claims := addClaims AUTHORITY_CLAIMS text_lower p3.identity_claims }

end Profiler

namespace MainApi

/-- `BehaviorProfile` of `src/honey-pot_api/main.py` (same fields as the
profiler module's copy). -/
structure BehaviorProfile where
  urgency_score : ℚ := 0
  aggression_score : ℚ := 0
  payment_turn : ℤ := -1
  total_messages : Nat := 0
  threat_count : Nat := 0
  payment_request_count : Nat := 0
  identity_claims : List (List Char) := []
deriving DecidableEq, Repr

/-- `URGENCY_WORDS` of `src/honey-pot_api/main.py` (a shorter list than the
profiler module's). -/
def URGENCY_WORDS : List (List Char) :=
  [strL "immediately", strL "urgent", strL "now", strL "quick", strL "fast",
   strL "hurry", strL "asap", strL "within 24 hours", strL "today only"]

/-- `THREAT_WORDS` of `src/honey-pot_api/main.py`. -/
def THREAT_WORDS : List (List Char) :=
  [strL "blocked", strL "suspend", strL "freeze", strL "legal action",
   strL "police", strL "arrest", strL "court", strL "case", strL "fine"]

/-- `PAYMENT_WORDS` of `src/honey-pot_api/main.py`. -/
def PAYMENT_WORDS : List (List Char) :=
  [strL "send money", strL "transfer", strL "pay", strL "payment", strL "amount",
   strL "rupees", strL "rs", strL "inr", strL "deposit"]

/-- `AUTHORITY_CLAIMS` of `src/honey-pot_api/main.py`. -/
def AUTHORITY_CLAIMS : List (List Char) :=
  [strL "bank", strL "rbi", strL "reserve bank", strL "government", strL "police",
   strL "cyber cell", strL "income tax"]

/-- `analyze_behavior` of `src/honey-pot_api/main.py` (lines 145-169); the
orchestrator's copy of the profiler with its own word lists. -/
def analyze_behavior (text : List Char) (turn : ℤ) (profile : BehaviorProfile) :
    BehaviorProfile :=
  let text_lower := lowerStr text
  let p0 := { profile with total_messages := profile.total_messages + 1 }
  let urgency_matches := (URGENCY_WORDS.filter (fun w => hasSub w text_lower)).length
  let p1 :=
    if urgency_matches > 0 then
      { p0 with urgency_score := max p0.urgency_score (min ((urgency_matches : ℚ) / 3) 1) }
    else p0
  let threat_matches := (THREAT_WORDS.filter (fun w => hasSub w text_lower)).length
  let p2 :=
    if threat_matches > 0 then
      { p1 with threat_count := p1.threat_count + threat_matches, aggression_score := max p1.aggression_score (min ((threat_matches : ℚ) / 2) 1) }
    else p1
  let payment_matches := (PAYMENT_WORDS.filter (fun w => hasSub w text_lower)).length
  let p3 :=
    if payment_matches > 0 then
      { p2 with payment_request_count := p2.payment_request_count + 1, payment_turn := if p2.payment_turn = -1 then turn else p2.payment_turn }
    else p2
  let p4 := { p3 with identity_claims := AUTHORITY_CLAIMS.foldl (fun acc claim => if hasSub claim text_lower ∧ claim ∉ acc then acc ++ [claim] else acc) p3.identity_claims }
  p4

end MainApi

/-! ## Claim C9: urgency and aggression scores never decrease -/

/-- C9: for every message text, turn number and prior profile, the profile
returned by one profiler update has `urgency_score` and `aggression_score` at
least the prior profile's values (the update takes `max(old, new)` and leaves
the scores alone otherwise) — in both the profiler module and the
orchestrator's copy. -/
theorem C9_profiler_scores_monotone (text : List Char) (turn : ℤ)
    (p : Profiler.BehaviorProfile) (q : MainApi.BehaviorProfile) :
    (p.urgency_score ≤ (Profiler.analyze_message text turn p).urgency_score ∧
      p.aggression_score ≤ (Profiler.analyze_message text turn p).aggression_score) ∧
    (q.urgency_score ≤ (MainApi.analyze_behavior text turn q).urgency_score ∧
      q.aggression_score ≤ (MainApi.analyze_behavior text turn q).aggression_score) := by
  constructor
  · unfold Profiler.analyze_message
    dsimp only
    split_ifs <;> simp [le_max_iff]
  · unfold MainApi.analyze_behavior
    dsimp only
    split_ifs <;> simp [le_max_iff]

/-! ## The session store and cross-session correlator (`src/services/session.py`) -/

namespace SessionSvc

/-- One kind's slice of `global_intel_tracker`: a dict from extracted value to
the list of session ids that produced it. -/
abbrev KindIndex := List (List Char × List (List Char))

/-- `global_intel_tracker` of `src/services/session.py`: one index per tracked
kind (`upiIds`, `phoneNumbers`, `links`). -/
structure GlobalTracker where
  upiIds : KindIndex := []
  phoneNumbers : KindIndex := []
  links : KindIndex := []
deriving DecidableEq

/-- The intelligence mapping as `track_global_intel` reads it: the values
stored under each of the three tracked kinds.  (The source accepts both plain
strings and dicts with a `"value"` entry; the value strings are what it
indexes either way.) -/
structure IntelValues where
  upiIds : List (List Char) := []
  phoneNumbers : List (List Char) := []
  links : List (List Char) := []
deriving DecidableEq

/-- The per-item body of `track_global_intel`'s loop: create the value's entry
when missing, then append the session id only when it is not already recorded. -/
def addSession (session_id : List Char) (value : List Char) (idx : KindIndex) :
    KindIndex :=
  match assocFind value idx with
  | none => idx ++ [(value, [session_id])]
  | some sids =>
    if session_id ∈ sids then idx else assocReplace value (sids ++ [session_id]) idx

/-- `track_global_intel`'s loop over one kind's item list. -/
def trackKind (session_id : List Char) (items : List (List Char))
    (idx : KindIndex) : KindIndex :=
  items.foldl (fun acc v => addSession session_id v acc) idx

/-- `track_global_intel` of `src/services/session.py` (lines 64-72). -/
def track_global_intel (session_id : List Char) (intel : IntelValues)
    (t : GlobalTracker) : GlobalTracker :=
  { upiIds := trackKind session_id intel.upiIds t.upiIds,
    phoneNumbers := trackKind session_id intel.phoneNumbers t.phoneNumbers,
    links := trackKind session_id intel.links t.links }

/-- The cross-link report of `get_cross_session_links`: per kind, a dict from
value to its distinct-session count. -/
structure CrossLinks where
  upiIds : List (List Char × Nat) := []
  phoneNumbers : List (List Char × Nat) := []
  links : List (List Char × Nat) := []
deriving DecidableEq

/-- One kind's loop of `get_cross_session_links`: a value whose session list
has more than one entry is reported with that list's length. -/
def linkKind (items : List (List Char)) (idx : KindIndex) :
    List (List Char × Nat) :=
  items.foldl
    (fun acc v =>
      let sessions_list := (assocFind v idx).getD []
      if sessions_list.length > 1 then assocSet v sessions_list.length acc else acc)
    []

/-- `get_cross_session_links` of `src/services/session.py` (lines 75-90). -/
def get_cross_session_links (intel : IntelValues) (t : GlobalTracker) :
    CrossLinks :=
  { upiIds := linkKind intel.upiIds t.upiIds,
    phoneNumbers := linkKind intel.phoneNumbers t.phoneNumbers,
    links := linkKind intel.links t.links }

theorem assocFind_append_new {v : List Char} {idx : KindIndex} {l : List (List Char)}
    (h : assocFind v idx = none) : assocFind v (idx ++ [(v, l)]) = some l := by
  induction idx with
  | nil => simp [assocFind]
  | cons p rest ih =>
    obtain ⟨k, w⟩ := p
    unfold assocFind at h ⊢
    by_cases hv : v = k
    · simp [hv] at h
    · simpa [hv] using ih (by simpa [hv] using h)

theorem assocFind_append_found {v : List Char} {idx : KindIndex}
    {l : List (List Char)} (h : assocFind v idx = some l)
    (e : List Char × List (List Char)) : assocFind v (idx ++ [e]) = some l := by
  induction idx with
  | nil => simp [assocFind] at h
  | cons p rest ih =>
    obtain ⟨k, w⟩ := p
    unfold assocFind at h ⊢
    by_cases hv : v = k
    · simpa [hv] using h
    · simpa [hv] using ih (by simpa [hv] using h)

theorem assocFind_assocReplace {v : List Char} {idx : KindIndex}
    {l l2 : List (List Char)} (h : assocFind v idx = some l) :
    assocFind v (assocReplace v l2 idx) = some l2 := by
  induction idx with
  | nil => simp [assocFind] at h
  | cons p rest ih =>
    obtain ⟨k, w⟩ := p
    unfold assocFind at h
    by_cases hv : v = k
    · simp [assocReplace, hv, assocFind]
    · simp only [assocReplace, assocFind, if_neg hv] at h ⊢
      simp only at hv
      simp [hv, ih h]

theorem assocFind_assocReplace_ne {v v2 : List Char} {l2 : List (List Char)}
    (hne : v ≠ v2) (idx : KindIndex) :
    assocFind v (assocReplace v2 l2 idx) = assocFind v idx := by
  induction idx with
  | nil => simp [assocReplace]
  | cons p rest ih =>
    obtain ⟨k, w⟩ := p
    by_cases hk : v2 = k
    · subst hk
      simp [assocReplace, assocFind, hne]
    · simp [assocReplace, assocFind, hk, ih]

/-- After `addSession`, the session id is recorded under the value. -/
theorem addSession_mem (sid v : List Char) (idx : KindIndex) :
    ∃ l, assocFind v (addSession sid v idx) = some l ∧ sid ∈ l := by
  unfold addSession
  cases hf : assocFind v idx with
  | none => exact ⟨[sid], assocFind_append_new hf, by simp⟩
  | some sids =>
    by_cases hm : sid ∈ sids
    · exact ⟨sids, by simpa [hm] using hf, hm⟩
    · exact ⟨sids ++ [sid], by simpa [hm] using assocFind_assocReplace hf, by simp⟩

/-- A session id already recorded under a value survives any `addSession`. -/
theorem addSession_preserve {sid v : List Char} {idx : KindIndex}
    {l : List (List Char)} (h : assocFind v idx = some l) (hm : sid ∈ l)
    (sid2 v2 : List Char) :
    ∃ l2, assocFind v (addSession sid2 v2 idx) = some l2 ∧ sid ∈ l2 := by
  unfold addSession
  cases hf : assocFind v2 idx with
  | none => exact ⟨l, assocFind_append_found h _, hm⟩
  | some sids =>
    by_cases hm2 : sid2 ∈ sids
    · exact ⟨l, by simpa [hm2] using h, hm⟩
    · by_cases hv : v = v2
      · subst hv
        rw [h] at hf
        cases hf
        exact ⟨l ++ [sid2], by simpa [hm2] using assocFind_assocReplace h, by simp [hm]⟩
      · exact ⟨l, by simpa [hm2] using (assocFind_assocReplace_ne hv idx).trans h, hm⟩

/-- A recorded session id survives a whole `trackKind` pass. -/
theorem trackKind_preserve {sid v : List Char} {l : List (List Char)}
    (sid2 : List Char) (items : List (List Char)) {idx : KindIndex}
    (h : assocFind v idx = some l) (hm : sid ∈ l) :
    ∃ l2, assocFind v (trackKind sid2 items idx) = some l2 ∧ sid ∈ l2 := by
  induction items generalizing idx l with
  | nil => exact ⟨l, h, hm⟩
  | cons y ys ih =>
    obtain ⟨l2, h2, hm2⟩ := addSession_preserve h hm sid2 y
    exact ih h2 hm2

/-- After `trackKind`, every processed value records the session id. -/
theorem trackKind_mem (sid : List Char) (items : List (List Char))
    (idx : KindIndex) :
    ∀ v ∈ items, ∃ l, assocFind v (trackKind sid items idx) = some l ∧ sid ∈ l := by
  induction items generalizing idx with
  | nil => simp
  | cons x rest ih =>
    intro v hv
    rcases List.mem_cons.mp hv with rfl | hv2
    · obtain ⟨l, hfind, hmem⟩ := addSession_mem sid v idx
      exact trackKind_preserve sid rest hfind hmem
    · exact ih _ v hv2

/-- If the session id is already recorded under the value, `addSession` is the
identity. -/
theorem addSession_noop {sid v : List Char} {idx : KindIndex}
    {l : List (List Char)} (h : assocFind v idx = some l) (hm : sid ∈ l) :
    addSession sid v idx = idx := by
  unfold addSession
  rw [h]
  simp [hm]

/-- If every value of `items` already records the session id, `trackKind`
changes nothing. -/
theorem trackKind_noop {sid : List Char} {items : List (List Char)}
    {idx : KindIndex}
    (h : ∀ v ∈ items, ∃ l, assocFind v idx = some l ∧ sid ∈ l) :
    trackKind sid items idx = idx := by
  induction items with
  | nil => rfl
  | cons x rest ih =>
    obtain ⟨l, hf, hm⟩ := h x (by simp)
    unfold trackKind at ih ⊢
    simp only [List.foldl_cons, addSession_noop hf hm]
    exact ih (fun v hv => h v (by simp [hv]))

/-- Re-recording the same session's intelligence leaves one kind's index
unchanged. -/
theorem trackKind_idem (sid : List Char) (items : List (List Char))
    (idx : KindIndex) :
    trackKind sid items (trackKind sid items idx) = trackKind sid items idx :=
  trackKind_noop (trackKind_mem sid items idx)

end SessionSvc

/-! ## Claim C3: recording intelligence in the global index is idempotent -/

/-- C3: re-recording the same session's intelligence never duplicates a session
id in the global index — `track_global_intel` is idempotent per session — and
in the concrete cross-session scenario, recording phone value `9999999999` for
session A then for session B makes `get_cross_session_links` report a
distinct-session count of 2 for it, which recording it again for session A
does not raise. -/
theorem C3_global_intel_idempotent :
    (∀ (sid : List Char) (intel : SessionSvc.IntelValues) (t : SessionSvc.GlobalTracker),
      SessionSvc.track_global_intel sid intel (SessionSvc.track_global_intel sid intel t) =
        SessionSvc.track_global_intel sid intel t) ∧
    (let v := strL "9999999999"
     let intel : SessionSvc.IntelValues := { phoneNumbers := [v] }
     let t1 := SessionSvc.track_global_intel (strL "A") intel {}
     let t2 := SessionSvc.track_global_intel (strL "B") intel t1
     let t3 := SessionSvc.track_global_intel (strL "A") intel t2
     assocFind v (SessionSvc.get_cross_session_links intel t2).phoneNumbers = some 2 ∧
       assocFind v (SessionSvc.get_cross_session_links intel t3).phoneNumbers = some 2) := by
  constructor
  · intro sid intel t
    unfold SessionSvc.track_global_intel
    simp [SessionSvc.trackKind_idem]
  · exact ⟨by decide, by decide⟩

/-! ## The intelligence model (`src/ai_agent/intelligence_model.py`): classifier -/

namespace IntelModel

/-- Python's `" ".join(messages)`. -/
def joinSpace : List (List Char) → List Char
  | [] => []
  | [m] => m
  | m :: rest => m ++ ' ' :: joinSpace rest

/-- `type_patterns` of `classify_scam_type`, in declaration order. -/
def type_patterns : List (List Char × List (List Char)) :=
  [ (strL "UPI_FRAUD",
      [strL "upi", strL "gpay", strL "phonepe", strL "paytm", strL "send money",
       strL "transfer"]),
    (strL "ACCOUNT_SUSPENSION",
      [strL "blocked", strL "suspend", strL "deactivate", strL "freeze",
       strL "restricted"]),
    (strL "KYC_UPDATE",
      [strL "kyc", strL "verify", strL "update", strL "aadhar", strL "pan",
       strL "documents"]),
    (strL "LOTTERY_SCAM",
      [strL "lottery", strL "prize", strL "winner", strL "congratulations",
       strL "won", strL "lucky"]),
    (strL "TECH_SUPPORT",
      [strL "virus", strL "hacked", strL "remote", strL "teamviewer",
       strL "anydesk"]),
    (strL "LOAN_FRAUD",
      [strL "loan", strL "emi", strL "credit", strL "pre-approved",
       strL "instant loan"]) ]

/-- One category's score: `sum(1 for kw in keywords if kw in combined)`. -/
def catScore (combined : List Char) (keywords : List (List Char)) : Nat :=
  (keywords.filter (fun kw => hasSub kw combined)).length

/-- The `scores` dict of `classify_scam_type`: category name paired with its
score, in declaration order. -/
def scoresList (messages : List (List Char)) : List (List Char × Nat) :=
  type_patterns.map (fun cat => (cat.1, catScore (lowerStr (joinSpace messages)) cat.2))

/-- `max(scores.values())` (0 on an empty dict; the dict here never is). -/
def sndMax : List (List Char × Nat) → Nat
  | [] => 0
  | p :: rest => max p.2 (sndMax rest)

/-- Python's `max(scores, key=scores.get)` scan: keep the current best, replace
it only on a strictly greater score — so the first maximal entry wins. -/
def maxBySnd (best : List Char × Nat) : List (List Char × Nat) → List Char × Nat
  | [] => best
  | p :: rest => maxBySnd (if best.2 < p.2 then p else best) rest

/-- `classify_scam_type` of `src/ai_agent/intelligence_model.py` (lines 77-99).
Python's `max` raises on an empty dict; `type_patterns` is never empty, so the
`[]` branch is unreachable. -/
def classify_scam_type (messages : List (List Char)) : List Char :=
  match scoresList messages with
  | [] => strL "UNKNOWN"
  | b :: rest =>
    if sndMax (b :: rest) > 0 then (maxBySnd b rest).1 else strL "UNKNOWN"

/-- The specification's reading of the classifier: the first category (in
declaration order) whose score equals the maximum, when any score is positive;
`"UNKNOWN"` otherwise. -/
def specClassify (messages : List (List Char)) : List Char :=
  let ss := scoresList messages
  if sndMax ss > 0 then
    match ss.find? (fun p => p.2 == sndMax ss) with
    | some p => p.1
    | none => strL "UNKNOWN"
  else strL "UNKNOWN"

theorem sndMax_eq_zero {l : List (List Char × Nat)} :
    sndMax l = 0 ↔ ∀ p ∈ l, p.2 = 0 := by
  induction l with
  | nil => simp [sndMax]
  | cons p rest ih => simp [sndMax, Nat.max_eq_zero_iff, ih]

theorem maxBySnd_mem (l : List (List Char × Nat)) (b : List Char × Nat) :
    maxBySnd b l ∈ b :: l := by
  induction l generalizing b with
  | nil => simp [maxBySnd]
  | cons p rest ih =>
    simp only [maxBySnd]
    have h := ih (if b.2 < p.2 then p else b)
    rcases List.mem_cons.mp h with h1 | h1
    · rw [h1]
      split <;> simp
    · simp [h1]

theorem find_maxBySnd (l : List (List Char × Nat)) (b : List Char × Nat)
    (M : Nat) (hM : M = max b.2 (sndMax l)) :
    (b :: l).find? (fun p => p.2 == M) = some (maxBySnd b l) := by
  induction l generalizing b M with
  | nil =>
    subst hM
    simp [maxBySnd, sndMax, List.find?]
  | cons p rest ih =>
    have hbM : b.2 ≤ M := hM ▸ le_max_left _ _
    have hpM : p.2 ≤ M := by
      rw [hM, sndMax]
      exact le_trans (le_max_left _ _) (le_max_right _ _)
    by_cases hlt : b.2 < p.2
    · have hbne : ¬((fun q : List Char × Nat => q.2 == M) b) = true := by
        simp only [beq_iff_eq]
        omega
      rw [@List.find?_cons_of_neg _ (fun q : List Char × Nat => q.2 == M) b (p :: rest) hbne]
      have hM2 : M = max p.2 (sndMax rest) := by
        have hble : b.2 ≤ max p.2 (sndMax rest) :=
          le_trans (le_of_lt hlt) (le_max_left _ _)
        rw [hM, sndMax, max_eq_right hble]
      rw [ih p M hM2]
      simp [maxBySnd, hlt]
    · have hM2 : M = max b.2 (sndMax rest) := by
        rw [hM, sndMax, ← max_assoc, max_eq_left (Nat.le_of_not_lt hlt)]
      by_cases hb : b.2 = M
      · have hbp : ((fun q : List Char × Nat => q.2 == M) b) = true := by
          simp [hb]
        rw [@List.find?_cons_of_pos _ (fun q : List Char × Nat => q.2 == M) b (p :: rest) hbp]
        have h2 := ih b M hM2
        rw [@List.find?_cons_of_pos _ (fun q : List Char × Nat => q.2 == M) b rest hbp] at h2
        simp only [maxBySnd, if_neg hlt]
        exact h2
      · have hbn : ¬((fun q : List Char × Nat => q.2 == M) b) = true := by
          simp only [beq_iff_eq]
          exact hb
        have hpn : ¬((fun q : List Char × Nat => q.2 == M) p) = true := by
          simp only [beq_iff_eq]
          have hpb : p.2 ≤ b.2 := Nat.le_of_not_lt hlt
          omega
        rw [@List.find?_cons_of_neg _ (fun q : List Char × Nat => q.2 == M) b (p :: rest) hbn]
        rw [@List.find?_cons_of_neg _ (fun q : List Char × Nat => q.2 == M) p rest hpn]
        have h2 := ih b M hM2
        rw [@List.find?_cons_of_neg _ (fun q : List Char × Nat => q.2 == M) b rest hbn] at h2
        rw [h2]
        simp [maxBySnd, hlt]

end IntelModel

namespace IntelModel

theorem classify_aux (b : List Char × Nat) (l : List (List Char × Nat)) :
    (if sndMax (b :: l) > 0 then (maxBySnd b l).1 else strL "UNKNOWN") =
      (if sndMax (b :: l) > 0 then
        (match (b :: l).find? (fun p => p.2 == sndMax (b :: l)) with
         | some p => p.1
         | none => strL "UNKNOWN")
       else strL "UNKNOWN") := by
  split
  · rw [find_maxBySnd l b (sndMax (b :: l)) rfl]
  · rfl

theorem classify_unknown_aux (b : List Char × Nat) (l : List (List Char × Nat))
    (hnames : ∀ p ∈ b :: l, p.1 ≠ strL "UNKNOWN") :
    ((if sndMax (b :: l) > 0 then (maxBySnd b l).1 else strL "UNKNOWN") =
        strL "UNKNOWN" ↔ ∀ p ∈ b :: l, p.2 = 0) := by
  by_cases hpos : sndMax (b :: l) > 0
  · rw [if_pos hpos]
    constructor
    · intro h
      exact absurd h (hnames _ (maxBySnd_mem l b))
    · intro h
      have h0 := sndMax_eq_zero.mpr h
      omega
  · rw [if_neg hpos]
    have h0 : sndMax (b :: l) = 0 := by omega
    exact ⟨fun _ => sndMax_eq_zero.mp h0, fun _ => rfl⟩

end IntelModel

/-! ## Claim C5: the classifier picks the first highest-scoring category -/

/-- C5: `classify_scam_type` returns the category with the highest keyword-hit
score over the concatenated lower-cased history, first declared category
winning ties (`specClassify` is that reading of the specification), and
returns `"UNKNOWN"` exactly when every category scores zero; the concrete
scenario message classifies as `UPI_FRAUD`. -/
theorem C5_classifier_first_max :
    (∀ messages,
      IntelModel.classify_scam_type messages = IntelModel.specClassify messages ∧
      (IntelModel.classify_scam_type messages = strL "UNKNOWN" ↔
        ∀ p ∈ IntelModel.scoresList messages, p.2 = 0)) ∧
    IntelModel.classify_scam_type
        [strL "your account will be blocked, pay immediately via UPI to fix@upi"] =
      strL "UPI_FRAUD" := by
  constructor
  · intro messages
    constructor
    · unfold IntelModel.classify_scam_type IntelModel.specClassify
      dsimp only [IntelModel.scoresList, IntelModel.type_patterns, List.map]
      exact IntelModel.classify_aux _ _
    · unfold IntelModel.classify_scam_type
      dsimp only [IntelModel.scoresList, IntelModel.type_patterns, List.map]
      refine IntelModel.classify_unknown_aux _ _ ?_
      intro p hp
      simp only [List.mem_cons, List.not_mem_nil, or_false] at hp
      rcases hp with rfl | rfl | rfl | rfl | rfl | rfl <;> (dsimp only; decide)
  · decide

/-! ## Deduplication (Python `set`/`dict` based dedup, first occurrence kept;
Python's `list(set(...))` order is unspecified, so theorems below only use
order-independent facts about deduplicated lists) -/

def dedupGo {α : Type} [DecidableEq α] (seen : List α) : List α → List α
  | [] => []
  | x :: xs => if x ∈ seen then dedupGo seen xs else x :: dedupGo (x :: seen) xs

/-- Deduplicate a list keeping first occurrences. -/
def dedupL {α : Type} [DecidableEq α] (l : List α) : List α := dedupGo [] l

theorem mem_dedupGo {α : Type} [DecidableEq α] {v : α} {seen l : List α}
    (h : v ∈ dedupGo seen l) : v ∈ l := by
  induction l generalizing seen with
  | nil => simp [dedupGo] at h
  | cons x xs ih =>
    unfold dedupGo at h
    split at h
    · exact List.mem_cons_of_mem _ (ih h)
    · rcases List.mem_cons.mp h with rfl | h2
      · exact List.mem_cons_self _ _
      · exact List.mem_cons_of_mem _ (ih h2)

theorem mem_dedupL {α : Type} [DecidableEq α] {v : α} {l : List α}
    (h : v ∈ dedupL l) : v ∈ l :=
  mem_dedupGo h

/-! ## The intelligence model: agent confidence (`calculate_agent_confidence`) -/

namespace IntelModel

/-- Python `round(x, 2)` over exact rationals: round half up to hundredths.
(Python rounds half to even, but every value this model rounds is an exact
multiple of 1/100, where the two conventions agree.) -/
def round2 (q : ℚ) : ℚ := (⌊q * 100 + 1 / 2⌋ : ℚ) / 100

/-- The `session_data["intelligence"]` dict: the stored values per kind, as
`src/services/session.py` initialises it. -/
structure IntelLists where
  upiIds : List (List Char) := []
  phoneNumbers : List (List Char) := []
  links : List (List Char) := []
  bankAccounts : List (List Char) := []
  ifscCodes : List (List Char) := []
deriving DecidableEq

/-- The behavior-profile fields `calculate_agent_confidence` reads
(`profile.get("urgency_score", 0)`, `("payment_turn", -1)`, `("threat_count", 0)`). -/
structure ProfileView where
  urgency_score : ℚ := 0
  payment_turn : ℤ := -1
  threat_count : Nat := 0
deriving DecidableEq

/-- The session snapshot `calculate_agent_confidence` reads. -/
structure SessionData where
  scam_detected : Bool := false
  intelligence : IntelLists := {}
  behavior_profile : ProfileView := {}
  cross_session_links : SessionSvc.CrossLinks := {}

/-- Python `any(cross_links.values())`: some kind's link dict is non-empty. -/
def anyLinks (cl : SessionSvc.CrossLinks) : Bool :=
  !cl.upiIds.isEmpty || !cl.phoneNumbers.isEmpty || !cl.links.isEmpty

/-- `calculate_agent_confidence` of `src/ai_agent/intelligence_model.py`
(lines 44-74), written as the source accumulates it: base 0.3 when detected;
`min(intel_count * 0.1, 0.3)` where `intel_count` sums the lengths of the
`upiIds`, `phoneNumbers` and `links` lists; +0.1 for urgency above 0.5, for a
positive payment turn, for a positive threat count, and for any cross-session
link; then `min(round(confidence, 2), 1.0)`. -/
def calculate_agent_confidence (sd : SessionData) : ℚ :=
  let c0 : ℚ := if sd.scam_detected then 3 / 10 else 0
  let intel_count := sd.intelligence.upiIds.length +
    sd.intelligence.phoneNumbers.length + sd.intelligence.links.length
  let c1 := c0 + min ((intel_count : ℚ) * (1 / 10)) (3 / 10)
  let c2 := if sd.behavior_profile.urgency_score > 1 / 2 then c1 + 1 / 10 else c1
  let c3 := if sd.behavior_profile.payment_turn > 0 then c2 + 1 / 10 else c2
  let c4 := if sd.behavior_profile.threat_count > 0 then c3 + 1 / 10 else c3
  let c5 := if anyLinks sd.cross_session_links then c4 + 1 / 10 else c4
  min (round2 c5) 1

/-- The confidence formula exactly as the claim words it: the intelligence
term counts *distinct* intel items over all stored kinds. -/
def specConfidenceClaim (sd : SessionData) : ℚ :=
  let distinct := (dedupL (sd.intelligence.upiIds ++ sd.intelligence.phoneNumbers ++
    sd.intelligence.links ++ sd.intelligence.bankAccounts ++
    sd.intelligence.ifscCodes)).length
  min (round2 ((if sd.scam_detected then 3 / 10 else 0) +
    min ((distinct : ℚ) * (1 / 10)) (3 / 10) +
    (if sd.behavior_profile.urgency_score > 1 / 2 then 1 / 10 else 0) +
    (if sd.behavior_profile.payment_turn > 0 then 1 / 10 else 0) +
    (if sd.behavior_profile.threat_count > 0 then 1 / 10 else 0) +
    (if anyLinks sd.cross_session_links then 1 / 10 else 0))) 1

/-- The amended confidence formula: as the claim, except that the intelligence
term counts the stored items of the `upiIds`, `phoneNumbers` and `links` kinds
with multiplicity (items of other kinds are not counted). -/
def specConfidenceAmended (sd : SessionData) : ℚ :=
  let n := sd.intelligence.upiIds.length + sd.intelligence.phoneNumbers.length +
    sd.intelligence.links.length
  min (round2 ((if sd.scam_detected then 3 / 10 else 0) +
    min ((n : ℚ) * (1 / 10)) (3 / 10) +
    (if sd.behavior_profile.urgency_score > 1 / 2 then 1 / 10 else 0) +
    (if sd.behavior_profile.payment_turn > 0 then 1 / 10 else 0) +
    (if sd.behavior_profile.threat_count > 0 then 1 / 10 else 0) +
    (if anyLinks sd.cross_session_links then 1 / 10 else 0))) 1

/-- The session of the claim's counterexample: detected, one stored
bank-account item and nothing else. -/
def cexSession : SessionData :=
  { scam_detected := true,
    intelligence := { bankAccounts := [strL "12345678901"] } }

/-- The session of the claim's confidence scenario: detected, 4 intel items
across the counted kinds, urgency 0.6, payment turn 2, no threats, no links. -/
def scenarioSession : SessionData :=
  { scam_detected := true,
    intelligence :=
      { upiIds := [strL "scam@upi", strL "fraud@paytm"],
        phoneNumbers := [strL "9876543210"],
        links := [strL "http://evil.in"] },
    behavior_profile := { urgency_score := 3 / 5, payment_turn := 2, threat_count := 0 } }

end IntelModel

/-! ## Claim C4: the agent-confidence formula -/

/-- C4 counterexample: on a session holding one bank-account intel item and
nothing else, the code's confidence is 0.3 but the claimed formula (which
counts distinct intel items of every kind) gives 0.4 — `intel_count` in the
source sums only the `upiIds`, `phoneNumbers` and `links` lists, with
multiplicity. -/
theorem C4_confidence_counterexample :
    IntelModel.calculate_agent_confidence IntelModel.cexSession = 3 / 10 ∧
      IntelModel.specConfidenceClaim IntelModel.cexSession = 2 / 5 ∧
      IntelModel.calculate_agent_confidence IntelModel.cexSession ≠
        IntelModel.specConfidenceClaim IntelModel.cexSession := by
  have h1 : IntelModel.calculate_agent_confidence IntelModel.cexSession = 3 / 10 := by
    simp only [IntelModel.calculate_agent_confidence, IntelModel.cexSession,
      IntelModel.anyLinks, IntelModel.round2]
    norm_num
  have h2 : IntelModel.specConfidenceClaim IntelModel.cexSession = 2 / 5 := by
    simp only [IntelModel.specConfidenceClaim, IntelModel.cexSession,
      IntelModel.anyLinks, IntelModel.round2, dedupL, dedupGo]
    norm_num
  refine ⟨h1, h2, ?_⟩
  rw [h1, h2]
  norm_num

/-- C4 (amended): the confidence function equals 0.3 if detected, plus
`min(n × 0.1, 0.3)` where `n` counts the stored payment-handle, phone and URL
items with multiplicity, plus 0.1 each for urgency > 0.5, positive payment
turn and positive threat count, plus 0.1 when any cross-session link exists,
rounded to 2 decimals and capped at 1.0; the claim's scenario (detected, 4
counted items, urgency 0.6, payment turn 2, no threats, no links) yields 0.8. -/
theorem C4_confidence_formula :
    (∀ sd, IntelModel.calculate_agent_confidence sd =
      IntelModel.specConfidenceAmended sd) ∧
    IntelModel.calculate_agent_confidence IntelModel.scenarioSession = 4 / 5 := by
  constructor
  · intro sd
    unfold IntelModel.calculate_agent_confidence IntelModel.specConfidenceAmended
    dsimp only
    split_ifs <;> ring_nf
  · simp only [IntelModel.calculate_agent_confidence, IntelModel.scenarioSession,
      IntelModel.anyLinks, IntelModel.round2]
    norm_num

/-! ## Regex scanners

Hand-compiled scanners for the exact patterns of the extractors, with Python
`re.findall`/`re.sub` semantics: scan left to right, try each start position,
resume after a match, advance one character on failure.  Each scanner carries
the character preceding the current position so `\b` word boundaries can be
tested, and a fuel argument that only drives termination (the text shrinks at
every step, so `length + 1` fuel is always enough). -/

/-- Word-character test of an optional character; the string's edges count as
non-word for `\b`. -/
def wordO : Option Char → Bool
  | none => false
  | some c => isWordCh c

/-- `[6-9]`. -/
def is69 (c : Char) : Bool := ('6' ≤ c) && (c ≤ '9')

/-- `\b[6-9]\d{9}\b` matches at the head of `cs`, with `prev` the character
just before: word boundary, a digit 6-9, nine digits, word boundary. -/
def phoneAt (prev : Option Char) (cs : List Char) : Bool :=
  match cs with
  | [] => false
  | c :: rest =>
    !(wordO prev) && is69 c && decide ((rest.take 9).length = 9) &&
      (rest.take 9).all isAsciiDigit && !(wordO (rest.drop 9).head?)

/-- `re.findall(r"\b[6-9]\d{9}\b", ·)`. -/
def scanPhoneGo : Nat → Option Char → List Char → List (List Char)
  | 0, _, _ => []
  | _ + 1, _, [] => []
  | fuel + 1, prev, c :: rest =>
    if phoneAt prev (c :: rest) then
      (c :: rest.take 9) :: scanPhoneGo fuel (c :: rest.take 9).getLast? (rest.drop 9)
    else
      scanPhoneGo fuel (some c) rest

/-- `re.findall(r"\b\d{lo,hi}\b", ·)`: a maximal digit run delimited by
non-word characters (or the string's edges) on both sides matches when its
length lies in `[lo, hi]`.  A longer run yields no match at all (the greedy
quantifier backtracks onto a digit, where `\b` fails), and no match can start
inside a run (two digits never form a boundary), so a disqualified run is
skipped whole. -/
def scanRunsGo (lo hi : Nat) : Nat → Option Char → List Char → List (List Char)
  | 0, _, _ => []
  | _ + 1, _, [] => []
  | fuel + 1, prev, c :: rest =>
    if isAsciiDigit c && !(wordO prev) then
      let run := c :: rest.takeWhile isAsciiDigit
      let rest2 := rest.dropWhile isAsciiDigit
      if decide (lo ≤ run.length) && decide (run.length ≤ hi) && !(wordO rest2.head?) then
        run :: scanRunsGo lo hi fuel run.getLast? rest2
      else
        scanRunsGo lo hi fuel run.getLast? rest2
    else
      scanRunsGo lo hi fuel (some c) rest

/-- The UPI pattern's first character class `[\w.-]`. -/
def isUpiCls (c : Char) : Bool := isWordCh c || c = '.' || c = '-'

/-- `re.findall(r"\b[\w.-]+@[a-zA-Z]{2,}\b", ·)`: at a boundary, the greedy
class run must end exactly at an `@` (the class excludes `@`, so backtracking
cannot help), then a maximal letter run of length ≥ 2 must end at a word
boundary (shrinking the letter run always lands letter-on-letter, so only the
maximal run can close the match). -/
def scanUpiGo : Nat → Option Char → List Char → List (List Char)
  | 0, _, _ => []
  | _ + 1, _, [] => []
  | fuel + 1, prev, c :: rest =>
    if (wordO prev != isWordCh c) && isUpiCls c then
      match rest.dropWhile isUpiCls with
      | '@' :: r2 =>
        let ls := r2.takeWhile isAsciiAlpha
        if decide (2 ≤ ls.length) && !(wordO (r2.dropWhile isAsciiAlpha).head?) then
          ((c :: rest.takeWhile isUpiCls) ++ '@' :: ls) ::
            scanUpiGo fuel ls.getLast? (r2.dropWhile isAsciiAlpha)
        else
          scanUpiGo fuel (some c) rest
      | _ => scanUpiGo fuel (some c) rest
    else
      scanUpiGo fuel (some c) rest

/-- The URL pattern's body class: everything but whitespace and
`< > " { } | \ ^ `` [ ]` (braces and backtick written by code point). -/
def isUrlCh (c : Char) : Bool :=
  !(isSpaceCh c) &&
    !(['<', '>', '\"', Char.ofNat 123, Char.ofNat 125, '|', '\\', '^',
       Char.ofNat 96, '[', ']'].contains c)

/-- `re.findall(r"https?://[^\s<>\"{}|\\^`\[\]]+", ·)`; the `s?` is greedy and
the body must be non-empty. -/
def scanLinkGo : Nat → List Char → List (List Char)
  | 0, _ => []
  | _ + 1, [] => []
  | fuel + 1, c :: rest =>
    if leadsWith (strL "https://") (c :: rest) then
      let body := ((c :: rest).drop 8).takeWhile isUrlCh
      if decide (1 ≤ body.length) then
        (strL "https://" ++ body) :: scanLinkGo fuel (((c :: rest).drop 8).dropWhile isUrlCh)
      else scanLinkGo fuel rest
    else if leadsWith (strL "http://") (c :: rest) then
      let body := ((c :: rest).drop 7).takeWhile isUrlCh
      if decide (1 ≤ body.length) then
        (strL "http://" ++ body) :: scanLinkGo fuel (((c :: rest).drop 7).dropWhile isUrlCh)
      else scanLinkGo fuel rest
    else scanLinkGo fuel rest

/-- `\b[A-Z]{4}0[A-Z0-9]{6}\b` with `re.IGNORECASE` matches at the head of
`cs`: boundary, 4 letters, the digit `0`, 6 alphanumerics, boundary. -/
def ifscAt (prev : Option Char) (cs : List Char) : Bool :=
  let chunk := cs.take 11
  !(wordO prev) && decide (chunk.length = 11) && (chunk.take 4).all isAsciiAlpha &&
    decide (chunk.getD 4 ' ' = '0') &&
    (chunk.drop 5).all (fun c => isAsciiAlpha c || isAsciiDigit c) &&
    !(wordO (cs.drop 11).head?)

/-- `re.findall(r"\b[A-Z]{4}0[A-Z0-9]{6}\b", ·, re.IGNORECASE)`. -/
def scanIfscGo : Nat → Option Char → List Char → List (List Char)
  | 0, _, _ => []
  | _ + 1, _, [] => []
  | fuel + 1, prev, c :: rest =>
    if ifscAt prev (c :: rest) then
      ((c :: rest).take 11) :: scanIfscGo fuel ((c :: rest).take 11).getLast? ((c :: rest).drop 11)
    else scanIfscGo fuel (some c) rest

/-! ## The intelligence extractor (`src/ai_agent/extractor.py`) -/

namespace Extractor

/-- `upi_suffixes` of `extract_upi_ids`. -/
def upi_suffixes : List (List Char) :=
  [strL "upi", strL "paytm", strL "ybl", strL "okhdfcbank", strL "okaxis",
   strL "okicici", strL "apl", strL "ibl"]

/-- `extract_upi_ids` of `src/ai_agent/extractor.py`: the regex matches, then
the suffix filter — whose `or '@' in m` arm keeps every match, since each
match contains an `@`. -/
def extract_upi_ids (text : List Char) : List (List Char) :=
  (scanUpiGo (text.length + 1) none text).filter
    (fun m => upi_suffixes.any (fun s => endsWithSub s (lowerStr m)) || m.any (· = '@'))

/-- `extract_phone_numbers` of `src/ai_agent/extractor.py`. -/
def extract_phone_numbers (text : List Char) : List (List Char) :=
  scanPhoneGo (text.length + 1) none text

/-- `extract_links` of `src/ai_agent/extractor.py`. -/
def extract_links (text : List Char) : List (List Char) :=
  scanLinkGo (text.length + 1) text

/-- `extract_bank_accounts` of `src/ai_agent/extractor.py` (lines 40-46):
9-18-digit runs, minus anything shaped like a 10-digit phone number starting
6-9. -/
def extract_bank_accounts (text : List Char) : List (List Char) :=
  (scanRunsGo 9 18 (text.length + 1) none text).filter
    (fun m => !(decide (m.length = 10) && is69 (m.headD '0')))

/-- `extract_ifsc_codes` of `src/ai_agent/extractor.py`. -/
def extract_ifsc_codes (text : List Char) : List (List Char) :=
  scanIfscGo (text.length + 1) none text

/-- `ExtractedIntel` of `src/ai_agent/extractor.py`. -/
structure ExtractedIntel where
  type : List Char
  value : List Char
  confidence : ℚ
  source_turn : Nat
  context : List Char

/-- The result dict of `extract_all`. -/
structure IntelMap where
  upiIds : List ExtractedIntel
  phoneNumbers : List ExtractedIntel
  links : List ExtractedIntel
  bankAccounts : List ExtractedIntel
  ifscCodes : List ExtractedIntel

/-- `get_context` of `extract_all`: ≈20 chars before and 30 after the first
case-insensitive occurrence; the first 50 chars when the value is absent. -/
def get_context (value full_text : List Char) : List Char :=
  match idxOfSub (lowerStr value) (lowerStr full_text) with
  | none => full_text.take 50
  | some idx =>
    (full_text.take (min full_text.length (idx + value.length + 30))).drop (idx - 20)

/-- `extract_all` of `src/ai_agent/extractor.py` (lines 56-124). -/
def extract_all (text : List Char) (turn_number : Nat) : IntelMap :=
  { upiIds := (extract_upi_ids text).map
      (fun v => ⟨strL "upi", v, 9 / 10, turn_number, get_context v text⟩),
    phoneNumbers := (extract_phone_numbers text).map
      (fun v => ⟨strL "phone", v, 17 / 20, turn_number, get_context v text⟩),
    links := (extract_links text).map
      (fun v => ⟨strL "link", v, 19 / 20, turn_number, get_context v text⟩),
    bankAccounts := (extract_bank_accounts text).map
      (fun v => ⟨strL "bank_account", v, 7 / 10, turn_number, get_context v text⟩),
    ifscCodes := (extract_ifsc_codes text).map
      (fun v => ⟨strL "ifsc", v, 19 / 20, turn_number, get_context v text⟩) }

/-- `count_intel` of `src/ai_agent/extractor.py`. -/
def count_intel (m : IntelMap) : Nat :=
  m.upiIds.length + m.phoneNumbers.length + m.links.length +
    m.bankAccounts.length + m.ifscCodes.length

end Extractor

/-! ## Claim C6: extraction round-trip -/

theorem scanPhoneGo_shape :
    ∀ (fuel : Nat) (prev : Option Char) (cs : List Char),
      ∀ v ∈ scanPhoneGo fuel prev cs, v.length = 10 ∧ is69 (v.headD '0') = true := by
  intro fuel
  induction fuel with
  | zero =>
    intro prev cs v hv
    simp [scanPhoneGo] at hv
  | succ fuel ih =>
    intro prev cs v hv
    match cs with
    | [] => simp [scanPhoneGo] at hv
    | c :: rest =>
      rw [scanPhoneGo] at hv
      by_cases hp : phoneAt prev (c :: rest) = true
      · rw [if_pos hp] at hv
        rcases List.mem_cons.mp hv with rfl | hv2
        · simp only [phoneAt, Bool.and_eq_true, decide_eq_true_eq] at hp
          obtain ⟨⟨⟨⟨_, h69⟩, hlen⟩, _⟩, _⟩ := hp
          exact ⟨by simp [hlen], by simpa using h69⟩
        · exact ih _ _ v hv2
      · rw [if_neg hp] at hv
        exact ih _ _ v hv

theorem extract_phone_shape {text v : List Char}
    (h : v ∈ Extractor.extract_phone_numbers text) :
    v.length = 10 ∧ is69 (v.headD '0') = true :=
  scanPhoneGo_shape _ _ _ v h

theorem extract_bank_not_phone_shape {text v : List Char}
    (h : v ∈ Extractor.extract_bank_accounts text) :
    ¬(v.length = 10 ∧ is69 (v.headD '0') = true) := by
  unfold Extractor.extract_bank_accounts at h
  have h2 := (List.mem_filter.mp h).2
  intro hcon
  cases v with
  | nil => simp at hcon
  | cons c vs =>
    simp only [List.headD_cons] at hcon
    simp [hcon.1, hcon.2] at h2

/-- C6: for a message in which the recognizers find exactly one payment
handle, one 10-digit mobile number and one URL, `extract_all` returns exactly
one item under each of the three corresponding kinds, carrying confidences
0.9, 0.85 and 0.95, and the phone value is never also reported as a bank
account (the bank-account recognizer filters out phone-shaped digit runs). -/
theorem C6_extraction_roundtrip (text : List Char) (turn : Nat)
    (h1 : (Extractor.extract_upi_ids text).length = 1)
    (h2 : (Extractor.extract_phone_numbers text).length = 1)
    (h3 : (Extractor.extract_links text).length = 1) :
    ((Extractor.extract_all text turn).upiIds.length = 1 ∧
      (Extractor.extract_all text turn).phoneNumbers.length = 1 ∧
      (Extractor.extract_all text turn).links.length = 1) ∧
    (∀ it ∈ (Extractor.extract_all text turn).upiIds, it.confidence = 9 / 10) ∧
    (∀ it ∈ (Extractor.extract_all text turn).phoneNumbers, it.confidence = 17 / 20) ∧
    (∀ it ∈ (Extractor.extract_all text turn).links, it.confidence = 19 / 20) ∧
    (∀ ph ∈ (Extractor.extract_all text turn).phoneNumbers,
      ∀ ba ∈ (Extractor.extract_all text turn).bankAccounts, ph.value ≠ ba.value) := by
  refine ⟨⟨?_, ?_, ?_⟩, ?_, ?_, ?_, ?_⟩
  · simp [Extractor.extract_all, h1]
  · simp [Extractor.extract_all, h2]
  · simp [Extractor.extract_all, h3]
  · intro it hit
    simp only [Extractor.extract_all, List.mem_map] at hit
    obtain ⟨v, _, rfl⟩ := hit
    rfl
  · intro it hit
    simp only [Extractor.extract_all, List.mem_map] at hit
    obtain ⟨v, _, rfl⟩ := hit
    rfl
  · intro it hit
    simp only [Extractor.extract_all, List.mem_map] at hit
    obtain ⟨v, _, rfl⟩ := hit
    rfl
  · intro ph hph ba hba
    simp only [Extractor.extract_all, List.mem_map] at hph hba
    obtain ⟨v1, hv1, rfl⟩ := hph
    obtain ⟨v2, hv2, rfl⟩ := hba
    intro heq
    simp only at heq
    exact extract_bank_not_phone_shape hv2 (heq ▸ extract_phone_shape hv1)

/-- The concrete message of the C6 witness: one UPI handle, one phone number,
one URL (whose 10-digit run the bank-account recognizer must skip). -/
def roundtripText : List Char :=
  strL "pay to scammer@upi or call 9876543210 now http://evil.in ok"

/-- C6 witness: the round-trip theorem applied to a concrete message. -/
theorem C6_extraction_roundtrip_witness :
    ((Extractor.extract_all roundtripText 1).upiIds.length = 1 ∧
      (Extractor.extract_all roundtripText 1).phoneNumbers.length = 1 ∧
      (Extractor.extract_all roundtripText 1).links.length = 1) ∧
    (∀ it ∈ (Extractor.extract_all roundtripText 1).upiIds, it.confidence = 9 / 10) ∧
    (∀ it ∈ (Extractor.extract_all roundtripText 1).phoneNumbers, it.confidence = 17 / 20) ∧
    (∀ it ∈ (Extractor.extract_all roundtripText 1).links, it.confidence = 19 / 20) ∧
    (∀ ph ∈ (Extractor.extract_all roundtripText 1).phoneNumbers,
      ∀ ba ∈ (Extractor.extract_all roundtripText 1).bankAccounts, ph.value ≠ ba.value) :=
  C6_extraction_roundtrip roundtripText 1 rfl rfl rfl

/-! ## The orchestrator's extractors (`src/honey-pot_api/main.py`, lines 211-280) -/

/-- `[6-9]\d{9}` matches at the head of `cs` (no boundary checks). -/
def tenDigitsAt (cs : List Char) : Bool :=
  match cs with
  | [] => false
  | c :: rest =>
    is69 c && decide ((rest.take 9).length = 9) && (rest.take 9).all isAsciiDigit

/-- Length of a `\+91\s?[6-9]\d{9}` match at the head of `cs`; `none` when it
does not match.  The greedy `\s?` is forced: a space cannot double as the
`[6-9]` digit. -/
def plus91Len (cs : List Char) : Option Nat :=
  match cs with
  | '+' :: '9' :: '1' :: rest =>
    match rest with
    | [] => none
    | c :: rest2 =>
      if isSpaceCh c then (if tenDigitsAt rest2 then some 14 else none)
      else if tenDigitsAt (c :: rest2) then some 13 else none
  | _ => none

/-- `re.findall(r"\+91\s?[6-9]\d{9}\b", ·)` (pattern A of
`extract_phone_numbers` in `main.py`): the sub-pattern above plus a trailing
word boundary. -/
def scanPlus91Go : Nat → List Char → List (List Char)
  | 0, _ => []
  | _ + 1, [] => []
  | fuel + 1, c :: rest =>
    match plus91Len (c :: rest) with
    | some n =>
      if !(wordO ((c :: rest).drop n).head?) then
        ((c :: rest).take n) :: scanPlus91Go fuel ((c :: rest).drop n)
      else scanPlus91Go fuel rest
    | none => scanPlus91Go fuel rest

/-- `re.sub(r'\+91\s?[6-9]\d{9}', '', ·)` of `extract_bank_accounts` in
`main.py` — note: no trailing `\b` in this pattern. -/
def subPlus91Go : Nat → List Char → List Char
  | 0, cs => cs
  | _ + 1, [] => []
  | fuel + 1, c :: rest =>
    match plus91Len (c :: rest) with
    | some n => subPlus91Go fuel ((c :: rest).drop n)
    | none => c :: subPlus91Go fuel rest

def subPlus91 (text : List Char) : List Char := subPlus91Go (text.length + 1) text

/-- `re.sub(r'\b[6-9]\d{9}\b', '', ·)`; boundaries are judged against the
original characters surrounding each match, as `re.sub` does. -/
def subPhoneGo : Nat → Option Char → List Char → List Char
  | 0, _, cs => cs
  | _ + 1, _, [] => []
  | fuel + 1, prev, c :: rest =>
    if phoneAt prev (c :: rest) then
      subPhoneGo fuel (c :: rest.take 9).getLast? (rest.drop 9)
    else c :: subPhoneGo fuel (some c) rest

def subPhone (text : List Char) : List Char := subPhoneGo (text.length + 1) none text

/-- The grouped bank-account pattern's separator class `[-\s]`. -/
def isSepCh (c : Char) : Bool := c = '-' || isSpaceCh c

/-- `\d{4}` at the head: the four digits and the remainder. -/
def take4Digits (cs : List Char) : Option (List Char × List Char) :=
  if decide ((cs.take 4).length = 4) && (cs.take 4).all isAsciiDigit then
    some (cs.take 4, cs.drop 4)
  else none

/-- The optional `(?:[-\s]\d{0,4})?` tail followed by `\b`, after its
separator `s` has matched, with the regex backtracking order: the greedy
`\d{0,4}` tries 4 digits down to 0, each requiring the trailing boundary; with
zero digits the boundary sits between the (non-word) separator and what
follows, so a word character must follow. -/
def optTail : Nat → Char → List Char → Option (List Char × List Char)
  | 0, s, r => if wordO r.head? then some ([s], r) else none
  | k + 1, s, r =>
    if decide ((r.take (k + 1)).length = k + 1) && (r.take (k + 1)).all isAsciiDigit &&
        !(wordO (r.drop (k + 1)).head?) then
      some (s :: r.take (k + 1), r.drop (k + 1))
    else optTail k s r

/-- `\d{4}[-\s]\d{4}[-\s]\d{4}(?:[-\s]\d{0,4})?\b` at the head of `cs` (the
leading `\b` is checked by the scanner).  When the optional tail fails
everywhere, the alternative without it needs a boundary right after the third
digit group: satisfied at the string's end, after a separator, or after any
other non-word character; a word character kills the match. -/
def matchGrouped (cs : List Char) : Option (List Char × List Char) :=
  match take4Digits cs with
  | none => none
  | some (d1, r1) =>
    match r1 with
    | [] => none
    | s1 :: r1b =>
      if isSepCh s1 then
        match take4Digits r1b with
        | none => none
        | some (d2, r2) =>
          match r2 with
          | [] => none
          | s2 :: r2b =>
            if isSepCh s2 then
              match take4Digits r2b with
              | none => none
              | some (d3, r3) =>
                match r3 with
                | [] => some (d1 ++ s1 :: d2 ++ s2 :: d3, [])
                | s3 :: r3b =>
                  if isSepCh s3 then
                    match optTail 4 s3 r3b with
                    | some (tl, rest) => some (d1 ++ s1 :: d2 ++ s2 :: (d3 ++ tl), rest)
                    | none => some (d1 ++ s1 :: d2 ++ s2 :: d3, r3)
                  else if isWordCh s3 then none
                  else some (d1 ++ s1 :: d2 ++ s2 :: d3, r3)
            else none
      else none

/-- `re.findall` over the grouped pattern (leading `\b`: a digit can only open
a match after a non-word character or the string's start). -/
def scanGroupedGo : Nat → Option Char → List Char → List (List Char)
  | 0, _, _ => []
  | _ + 1, _, [] => []
  | fuel + 1, prev, c :: rest =>
    if isAsciiDigit c && !(wordO prev) then
      match matchGrouped (c :: rest) with
      | some (m, rest2) => m :: scanGroupedGo fuel m.getLast? rest2
      | none => scanGroupedGo fuel (some c) rest
    else scanGroupedGo fuel (some c) rest

/-- Python `str.strip()`. -/
def pyStrip (cs : List Char) : List Char :=
  ((cs.dropWhile isSpaceCh).reverse.dropWhile isSpaceCh).reverse

/-- `re.sub(r'[-\s]', '', ·)` of `extract_bank_accounts` in `main.py`. -/
def remSeps (cs : List Char) : List Char := cs.filter (fun c => !(isSepCh c))

namespace MainApi

/-- `extract_upi_ids` of `main.py` (lines 211-213): the same pattern as the
extractor module's, with no suffix filter. -/
def extract_upi_ids (text : List Char) : List (List Char) :=
  scanUpiGo (text.length + 1) none text

/-- `extract_phone_numbers` of `main.py` (lines 216-225): both phone patterns,
then `list(set(...))`, modelled as first-occurrence dedup (Python's set order
is unspecified; only membership is relied on below). -/
def extract_phone_numbers (text : List Char) : List (List Char) :=
  dedupL (scanPlus91Go (text.length + 1) text ++ scanPhoneGo (text.length + 1) none text)

/-- Python `link.rstrip('!.,;:?')`. -/
def rstripPunct (cs : List Char) : List Char :=
  (cs.reverse.dropWhile (fun c => ['!', '.', ',', ';', ':', '?'].contains c)).reverse

/-- `extract_links` of `main.py` (lines 251-258). -/
def extract_links (text : List Char) : List (List Char) :=
  dedupL ((scanLinkGo (text.length + 1) text).map rstripPunct)

/-- `extract_bank_accounts` of `main.py` (lines 228-248): phone numbers are
erased from the text first; the grouped and the 11-16-digit-run patterns are
collected; each match is stripped and kept only when its digit count (after
removing separators) lies in `[11, 18]`; the result is deduplicated. -/
def extract_bank_accounts (text : List Char) : List (List Char) :=
  let text1 := subPlus91 text
  let text2 := subPhone text1
  let ms := scanGroupedGo (text2.length + 1) none text2 ++
    scanRunsGo 11 16 (text2.length + 1) none text2
  dedupL (ms.filterMap (fun mt =>
    let clean := pyStrip mt
    if decide (11 ≤ (remSeps clean).length) && decide ((remSeps clean).length ≤ 18) then
      some clean
    else none))

/-- The result dict of `extract_all` in `main.py`: four kinds, no
`ifscCodes`. -/
structure IntelMap4 where
  upiIds : List Extractor.ExtractedIntel
  phoneNumbers : List Extractor.ExtractedIntel
  links : List Extractor.ExtractedIntel
  bankAccounts : List Extractor.ExtractedIntel

/-- `extract_all` of `main.py` (lines 261-280); its `get_context` helper is
identical to the extractor module's. -/
def extract_all (text : List Char) (turn : Nat) : IntelMap4 :=
  { upiIds := (extract_upi_ids text).map
      (fun v => ⟨strL "upi", v, 9 / 10, turn, Extractor.get_context v text⟩),
    phoneNumbers := (extract_phone_numbers text).map
      (fun v => ⟨strL "phone", v, 17 / 20, turn, Extractor.get_context v text⟩),
    links := (extract_links text).map
      (fun v => ⟨strL "link", v, 19 / 20, turn, Extractor.get_context v text⟩),
    bankAccounts := (extract_bank_accounts text).map
      (fun v => ⟨strL "bank", v, 4 / 5, turn, Extractor.get_context v text⟩) }

end MainApi

/-! ## Claim C7: what the bank-account recognizer accepts -/

/-- C7 counterexample: a plain 17-digit run — which the claim's "digit runs of
length 11 to 18" includes — is not reported: the plain-run pattern in the
source is `\b\d{11,16}\b`, so 17- and 18-digit runs match nothing. -/
theorem C7_bank_range_counterexample :
    (remSeps (strL "12345678901234567")).length = 17 ∧
      MainApi.extract_bank_accounts (strL "acct 12345678901234567 ok") = [] := by
  constructor
  · decide
  · decide

/-- C7 (amended): every value the bank-account recognizer reports contains
between 11 and 18 digits once separators are removed — in particular no digit
run shorter than 11 is ever reported — and plain digit runs are accepted only
up to length 16: an 11-digit run and a grouped 4-4-4 pattern are reported (at
fixed confidence 0.8 in `extract_all`), a 17-digit plain run is not. -/
theorem C7_bank_account_bounds :
    (∀ (text : List Char), ∀ v ∈ MainApi.extract_bank_accounts text,
      11 ≤ (remSeps v).length ∧ (remSeps v).length ≤ 18) ∧
    MainApi.extract_bank_accounts (strL "pay to 12345678901 now") =
      [strL "12345678901"] ∧
    MainApi.extract_bank_accounts (strL "send 1234-5678-9012 now") =
      [strL "1234-5678-9012"] ∧
    (∀ it ∈ (MainApi.extract_all (strL "pay to 12345678901 now") 1).bankAccounts,
      it.confidence = 4 / 5) := by
  refine ⟨?_, by decide, by decide, ?_⟩
  · intro text v hv
    unfold MainApi.extract_bank_accounts at hv
    have hv2 := mem_dedupL hv
    obtain ⟨mt, _, heq⟩ := List.mem_filterMap.mp hv2
    by_cases hc : (decide (11 ≤ (remSeps (pyStrip mt)).length) &&
        decide ((remSeps (pyStrip mt)).length ≤ 18)) = true
    · rw [if_pos hc] at heq
      cases heq
      simpa using hc
    · rw [if_neg hc] at heq
      exact Option.noConfusion heq
  · intro it hit
    simp only [MainApi.extract_all, List.mem_map] at hit
    obtain ⟨v, _, rfl⟩ := hit
    rfl

/-! ## The orchestrator endpoint (`src/honey-pot_api/main.py`, lines 552-646) -/

namespace MainApi

/-- `SCAM_KEYWORDS` of `main.py` (line 345). -/
def SCAM_KEYWORDS : List (List Char) :=
  [strL "blocked", strL "verify", strL "urgent", strL "suspend", strL "account",
   strL "upi", strL "bank", strL "lottery", strL "prize"]

/-- `is_scam_message` of `main.py` (lines 354-356). -/
def is_scam_message (text : List Char) : Bool :=
  SCAM_KEYWORDS.any (fun kw => hasSub kw (lowerStr text))

/-- `SCAM_TYPE_PATTERNS` of `main.py` (lines 346-351): four categories. -/
def SCAM_TYPE_PATTERNS : List (List Char × List (List Char)) :=
  [ (strL "UPI_FRAUD",
      [strL "upi", strL "gpay", strL "phonepe", strL "paytm", strL "send money",
       strL "transfer"]),
    (strL "ACCOUNT_SUSPENSION",
      [strL "blocked", strL "suspend", strL "deactivate", strL "freeze",
       strL "restricted"]),
    (strL "KYC_UPDATE",
      [strL "kyc", strL "verify", strL "update", strL "aadhar", strL "pan",
       strL "documents"]),
    (strL "LOTTERY_SCAM",
      [strL "lottery", strL "prize", strL "winner", strL "congratulations",
       strL "won", strL "lucky"]) ]

/-- `classify_scam_type` of `main.py` (lines 359-362): same argmax as the
intelligence model's classifier, over four categories. -/
def classify_scam_type (messages : List (List Char)) : List Char :=
  match SCAM_TYPE_PATTERNS.map
      (fun cat => (cat.1, IntelModel.catScore (lowerStr (IntelModel.joinSpace messages)) cat.2)) with
  | [] => strL "UNKNOWN"
  | b :: rest =>
    if IntelModel.sndMax (b :: rest) > 0 then (IntelModel.maxBySnd b rest).1
    else strL "UNKNOWN"

/-- `STATE_REPLIES` of `main.py` (lines 473-480). -/
def STATE_REPLIES (s : AgentState) : List (List Char) :=
  match s with
  | AgentState.INIT => [strL "Sir, what is happening? I don\x27t understand."]
  | AgentState.CONFUSED =>
    [strL "But why is my account blocked? I didn\x27t do anything wrong.",
     strL "Sir, please explain. What mistake have I made?"]
  | AgentState.TRUSTING =>
    [strL "Okay sir, please tell me what I need to do.",
     strL "I am very worried. Please help me fix this."]
  | AgentState.COMPLIANT =>
    [strL "Okay, I will do as you say. Where should I send the money?",
     strL "Please give me the details."]
  | AgentState.EXTRACTION =>
    [strL "Can you share the payment details again?",
     strL "What is your phone number so I can confirm?"]
  | AgentState.EXIT =>
    [strL "Okay sir, I will do it in some time. Thank you.",
     strL "Let me think about this. I will call you back."]

/-- `get_reply` of `main.py` (lines 491-507), with the language-model phrasing
collaborator — an external network call that never affects a control decision
— modelled as unavailable, so the deterministic fallback
`replies[turn % len(replies)]` is always taken. -/
def get_reply (state : AgentState) (turn : Nat) : List Char :=
  let replies := STATE_REPLIES state
  replies.getD (turn % replies.length) []

/-- One stored intelligence dict of `session.intelligence`
(`{"value", "confidence", "source_turn", "context"}`, lines 586-591). -/
structure StoredIntel where
  value : List Char
  confidence : ℚ
  source_turn : Nat
  context : List Char

/-- `ChatMessage` of `main.py`. -/
structure ChatMessage where
  role : List Char
  content : List Char
  turn : Nat
  timestamp : Option Int := none

/-- `Session.intelligence` of `main.py`: four kinds. -/
structure IntelStore where
  upiIds : List StoredIntel := []
  phoneNumbers : List StoredIntel := []
  links : List StoredIntel := []
  bankAccounts : List StoredIntel := []

/-- `Session` of `main.py` (lines 295-307). -/
structure Session where
  session_id : List Char
  state : AgentState := AgentState.INIT
  turns : Nat := 0
  scam_detected : Bool := false
  scam_type : Option (List Char) := none
  all_messages : List (List Char) := []
  chat_history : List ChatMessage := []
  intelligence : IntelStore := {}
  behavior_profile : BehaviorProfile := {}
  is_complete : Bool := false

/-- `global_intel_tracker` of `main.py` (line 311): four kinds. -/
structure GlobalTracker4 where
  upiIds : SessionSvc.KindIndex := []
  phoneNumbers : SessionSvc.KindIndex := []
  links : SessionSvc.KindIndex := []
  bankAccounts : SessionSvc.KindIndex := []

/-- `track_global_intel` of `main.py` (lines 320-327): the same per-item index
update as the session service's, over four kinds, reading each stored dict's
`"value"`. -/
def track_global_intel (session_id : List Char) (intel : IntelStore)
    (t : GlobalTracker4) : GlobalTracker4 :=
  { upiIds := SessionSvc.trackKind session_id (intel.upiIds.map (·.value)) t.upiIds,
    phoneNumbers := SessionSvc.trackKind session_id (intel.phoneNumbers.map (·.value)) t.phoneNumbers,
    links := SessionSvc.trackKind session_id (intel.links.map (·.value)) t.links,
    bankAccounts := SessionSvc.trackKind session_id (intel.bankAccounts.map (·.value)) t.bankAccounts }

/-- The intelligence-append loop of the endpoint (lines 584-591). -/
def appendIntel (store : IntelStore) (ex : IntelMap4) : IntelStore :=
  { upiIds := store.upiIds ++ ex.upiIds.map (fun it => ({ value := it.value, confidence := it.confidence, source_turn := it.source_turn, context := it.context } : StoredIntel)),
    phoneNumbers := store.phoneNumbers ++ ex.phoneNumbers.map (fun it => ({ value := it.value, confidence := it.confidence, source_turn := it.source_turn, context := it.context } : StoredIntel)),
    links := store.links ++ ex.links.map (fun it => ({ value := it.value, confidence := it.confidence, source_turn := it.source_turn, context := it.context } : StoredIntel)),
    bankAccounts := store.bankAccounts ++ ex.bankAccounts.map (fun it => ({ value := it.value, confidence := it.confidence, source_turn := it.source_turn, context := it.context } : StoredIntel)) }

/-- `intel_count` of the endpoint (line 611). -/
def intelCount (store : IntelStore) : Nat :=
  store.upiIds.length + store.phoneNumbers.length + store.links.length +
    store.bankAccounts.length

/-- `MAX_TURNS` of `main.py` (line 549). -/
def MAX_TURNS : Nat := 10

/-- `honeypot_endpoint` of `main.py` (lines 552-646) as a state transition on
(session, global tracker), returning the updated pair and the reply text.
Read-only steps with no effect on the stored state are elided: the
`calculate_agent_confidence` / `get_cross_session_links` values feed only the
log line and the callback payload, and the callback delivery is an external
network call performed after `is_complete` is already set. -/
def honeypot_process (session : Session) (tracker : GlobalTracker4)
    (sender : List Char) (text : List Char) (timestamp : Option Int) :
    Session × GlobalTracker4 × List Char :=
  let s1 := { session with
    all_messages := session.all_messages ++ [text],
    chat_history := session.chat_history ++ [({ role := strL "scammer", content := text, turn := session.turns + 1, timestamp := timestamp } : ChatMessage)] }
  if s1.is_complete then (s1, tracker, strL "Thank you, I will check this later.")
  else if sender = strL "scammer" then
    let s2 := { s1 with turns := s1.turns + 1 }
    let extracted := extract_all text s2.turns
    let s3 := { s2 with intelligence := appendIntel s2.intelligence extracted }
    let tracker2 := track_global_intel s3.session_id s3.intelligence tracker
    let s4 := { s3 with behavior_profile := analyze_behavior text (s3.turns : ℤ) s3.behavior_profile }
    if !s4.scam_detected && !is_scam_message text then
      (s4, tracker2, strL "Okay, I understand.")
    else
      let s5 := { s4 with
        scam_detected := true,
        scam_type := some (classify_scam_type s4.all_messages) }
      let s6 := { s5 with
        state := get_next_state s5.state s5.turns
          (decide (s5.behavior_profile.payment_turn > 0)) (intelCount s5.intelligence) MAX_TURNS }
      let reply := get_reply s6.state s6.turns
      let s7 := { s6 with chat_history := s6.chat_history ++ [({ role := strL "agent", content := reply, turn := s6.turns, timestamp := none } : ChatMessage)] }
      if s7.state = AgentState.EXIT then
        ({ s7 with is_complete := true }, tracker2, reply)
      else (s7, tracker2, reply)
  else (s1, tracker, strL "Okay.")

end MainApi

/-! ## Claim C8: turnCount per scammer message -/

theorem honeypot_turns_scammer (session : MainApi.Session)
    (tracker : MainApi.GlobalTracker4) (text : List Char) (ts : Option Int)
    (hc : session.is_complete = false) :
    (MainApi.honeypot_process session tracker (strL "scammer") text ts).1.turns =
      session.turns + 1 := by
  unfold MainApi.honeypot_process
  rw [if_neg (by simp [hc]), if_pos rfl]
  dsimp only
  split
  · rfl
  · split <;> rfl

theorem honeypot_turns_skip (session : MainApi.Session)
    (tracker : MainApi.GlobalTracker4) (sender text : List Char) (ts : Option Int)
    (h : sender ≠ strL "scammer" ∨ session.is_complete = true) :
    (MainApi.honeypot_process session tracker sender text ts).1.turns =
      session.turns := by
  unfold MainApi.honeypot_process
  by_cases hc : session.is_complete = true
  · rw [if_pos (by simpa using hc)]
  · rw [if_neg (by simpa using hc)]
    have hs : ¬sender = strL "scammer" := by
      rcases h with h | h
      · exact h
      · exact absurd h hc
    rw [if_neg hs]

/-- C8 counterexample: a completed session.  The endpoint returns before the
`session.turns += 1` line when `is_complete` is set, so a scammer-authored
inbound message does not raise `turnCount` there. -/
theorem C8_turncount_counterexample :
    ¬((MainApi.honeypot_process
        { session_id := strL "S", turns := 5, is_complete := true }
        {} (strL "scammer") (strL "urgent upi payment") none).1.turns =
      ({ session_id := strL "S", turns := 5, is_complete := true } :
        MainApi.Session).turns + 1) := by
  decide

/-- C8 (amended): processing an inbound message raises the session's
`turnCount` by exactly 1 when the sender is the scammer and the session is not
yet complete; otherwise (non-scammer sender, or a session already complete) it
leaves `turnCount` unchanged — and `turnCount` never decreases. -/
theorem C8_turncount_step (session : MainApi.Session)
    (tracker : MainApi.GlobalTracker4) (sender text : List Char) (ts : Option Int) :
    ((sender = strL "scammer" ∧ session.is_complete = false) →
      (MainApi.honeypot_process session tracker sender text ts).1.turns =
        session.turns + 1) ∧
    ((sender ≠ strL "scammer" ∨ session.is_complete = true) →
      (MainApi.honeypot_process session tracker sender text ts).1.turns =
        session.turns) ∧
    session.turns ≤ (MainApi.honeypot_process session tracker sender text ts).1.turns := by
  refine ⟨?_, honeypot_turns_skip session tracker sender text ts, ?_⟩
  · rintro ⟨rfl, hc⟩
    exact honeypot_turns_scammer session tracker text ts hc
  · by_cases hs : sender = strL "scammer"
    · subst hs
      by_cases hc : session.is_complete = true
      · rw [honeypot_turns_skip session tracker _ text ts (Or.inr hc)]
      · rw [honeypot_turns_scammer session tracker text ts (by simpa using hc)]
        omega
    · rw [honeypot_turns_skip session tracker sender text ts (Or.inl hs)]

/-- C8 witness: a fresh session processed with a scammer message has its turn
count raised from 0 to 1. -/
theorem C8_turncount_step_witness :
    (MainApi.honeypot_process { session_id := strL "S" } {}
        (strL "scammer") (strL "your account is blocked, verify now") none).1.turns =
      ({ session_id := strL "S" } : MainApi.Session).turns + 1 :=
  (C8_turncount_step { session_id := strL "S" } {}
      (strL "scammer") (strL "your account is blocked, verify now") none).1
    ⟨rfl, rfl⟩
